import Mathlib

/-!
Verification of the signup backend (`backend/server.js`, Express + MySQL).

The server is embedded shallowly: each Express handler becomes a pure Lean
function from an environment (injected store/hash failures, bcrypt salt,
clock), the database state and the request to a result bundling the HTTP
response, the new database state, the `console.log` trace and the list of
SQL statements issued.  The MySQL `users` table is a list of rows plus the
AUTO_INCREMENT counter; `bcrypt.hash(pw, 10)` is abstracted as a tagged
one-way digest parameterised by cost and salt.
-/

/-- A row of the `users` table:
`id INT AUTO_INCREMENT PRIMARY KEY, full_name VARCHAR(255) NOT NULL,`
`email VARCHAR(255) UNIQUE NOT NULL, password VARCHAR(255) NOT NULL,`
`created_at TIMESTAMP DEFAULT CURRENT_TIMESTAMP`.
The `password` column stores the bcrypt hash. -/
structure UserRec where
  id : Nat
  full_name : String
  email : String
  password : String
  created_at : Nat
deriving Repr, DecidableEq

/-- The MySQL database state: the rows of `users`, the AUTO_INCREMENT
counter, and whether the `users` table has been created. -/
structure DB where
  users : List UserRec
  nextId : Nat
  hasUsersTable : Bool
deriving Repr, DecidableEq

/-- Errors surfaced by the mysql2 driver (`error.code`) or by bcryptjs
(no MySQL code, message only): the two codes the signup catch block
inspects, and everything else. -/
inductive JsErr where
  | dupEntry
  | noSuchTable
  | other (msg : String)
deriving Repr, DecidableEq

/-- The ambient behaviour of the store and of bcrypt during one request:
which query fails (if any), plus the bcrypt salt and the SQL clock used
for `created_at`.  `hashErr` is a bare message because bcryptjs errors
carry no MySQL error code. -/
structure Env where
  selectErr : Option JsErr
  hashErr : Option String
  insertErr : Option JsErr
  salt : String
  now : Nat
deriving Repr, DecidableEq

/-- Abstraction of `bcrypt.hash(pw, cost)`: a tagged digest determined by
the cost factor, the salt and the plaintext.  The digest mixes the
characters of the plaintext into a 32-bit accumulator; the plaintext
itself never appears in the output. -/
def bcryptHash (cost : Nat) (salt pw : String) : String :=
  "$2b$" ++ toString cost ++ "$" ++ salt ++ "$" ++
    toString (pw.data.foldl (fun a c => (a * 131 + c.toNat) % 4294967296) 5381)

/-- The JSON body of a request as the signup handler reads it:
`const { full_name, email, password } = req.body;` — each field is
`undefined` (`none`) or a string. -/
structure SignupBody where
  full_name : Option String
  email : Option String
  password : Option String
deriving Repr, DecidableEq

/-- JavaScript truthiness of an optional string field: `undefined` and
`""` are falsy, every other string is truthy. -/
def truthy : Option String → Bool
  | none => false
  | some s => !(s == "")

/-- A row of the public projection `SELECT id, full_name, email, created_at
FROM users` — note: no password column. -/
structure UserRow where
  id : Nat
  full_name : String
  email : String
  created_at : Nat
deriving Repr, DecidableEq

/-- The JSON response bodies the server sends. -/
inductive RespBody where
  /-- Error body: success false plus the error message string. -/
  | err (msg : String)
  /-- Created body of 201: success true, message, and the user projection
  carrying id, full_name and email. -/
  | signupOk (id : Nat) (full_name email : String)
  /-- List body of GET /users: success true plus the data rows. -/
  | usersList (rows : List UserRow)
  /-- Health body: status OK, message, timestamp. -/
  | health
  /-- Test body: success true, message, tableExists flag and the 1+1
  test result. -/
  | testDb (tableExists : Bool) (solution : Nat)
  /-- Confirmation body of GET /create-users-table. -/
  | tableReady
  /-- Directory body of the GET / endpoint. -/
  | rootInfo
deriving Repr, DecidableEq

/-- An HTTP response: status code and JSON body. -/
structure Response where
  status : Nat
  body : RespBody
deriving Repr, DecidableEq

/-- One `console.log` / `console.error` line, kept structured: the payload
object that was logged.  `signupRequest` is
`console.log("Received signup request:", req.body)` — it carries the whole
body, plaintext password included. -/
inductive LogEntry where
  | signupRequest (body : SignupBody)
  | userCreated (id : Nat)
  | signupError (e : JsErr)
  | getUsersError (e : JsErr)
  | dbTestError (e : JsErr)
  | tableCreationError (e : JsErr)
deriving Repr, DecidableEq

/-- One SQL statement handed to `executeQuery` (all parameterized). -/
inductive StoreOp where
  | selectByEmail (email : String)
  | insertUser (full_name email pwHash : String)
  | createUsersTable
  | selectAllUsers
  | selectOnePlusOne
  | showTables
deriving Repr, DecidableEq

/-- The observable outcome of one request: response, database state after,
log lines emitted, SQL statements issued. -/
structure HResult where
  resp : Response
  db : DB
  log : List LogEntry
  ops : List StoreOp
deriving Repr, DecidableEq

/-- Result set of `SELECT id FROM users WHERE email = ?`. -/
def findByEmail (db : DB) (em : String) : List UserRec :=
  db.users.filter (fun u => u.email == em)

/-- The catch block of the signup handler (lines 187–209): logs the error,
maps `ER_DUP_ENTRY` to 409, `ER_NO_SUCH_TABLE` to a dedicated 500, and
everything else to `500 "Registration failed: " + error.message`. -/
def signupCatch (db : DB) (log0 : List LogEntry) (ops : List StoreOp)
    (e : JsErr) : HResult :=
  let log := log0 ++ [LogEntry.signupError e]
  match e with
  | .dupEntry =>
      ⟨⟨409, .err "Email already exists"⟩, db, log, ops⟩
  | .noSuchTable =>
      ⟨⟨500, .err "Database table not found. Please contact administrator."⟩,
        db, log, ops⟩
  | .other msg =>
      ⟨⟨500, .err ("Registration failed: " ++ msg)⟩, db, log, ops⟩

/-- The `POST /signup` handler (lines 133–210): log the body, validate the
three fields, reject short passwords, pre-check the email, hash with
bcrypt cost 10, insert, answer 201 with the new id; any thrown error goes
through `signupCatch`. -/
def signup (env : Env) (db : DB) (body : SignupBody) : HResult :=
  let log0 := [LogEntry.signupRequest body]
  if !(truthy body.full_name) || !(truthy body.email) || !(truthy body.password) then
    ⟨⟨400, .err "Full name, email and password are required"⟩, db, log0, []⟩
  else
    let full_name := body.full_name.getD ""
    let email := body.email.getD ""
    let password := body.password.getD ""
    if password.length < 6 then
      ⟨⟨400, .err "Password must be at least 6 characters"⟩, db, log0, []⟩
    else
      let ops1 := [StoreOp.selectByEmail email]
      match env.selectErr with
      | some e => signupCatch db log0 ops1 e
      | none =>
        if 0 < (findByEmail db email).length then
          ⟨⟨409, .err "User already exists with this email"⟩, db, log0, ops1⟩
        else
          match env.hashErr with
          | some m => signupCatch db log0 ops1 (JsErr.other m)
          | none =>
            let hashed := bcryptHash 10 env.salt password
            let ops2 := ops1 ++ [StoreOp.insertUser full_name email hashed]
            match env.insertErr with
            | some e => signupCatch db log0 ops2 e
            | none =>
              let newId := db.nextId
              ⟨⟨201, .signupOk newId full_name email⟩,
                ⟨db.users ++ [⟨newId, full_name, email, hashed, env.now⟩],
                  db.nextId + 1, db.hasUsersTable⟩,
                log0 ++ [LogEntry.userCreated newId], ops2⟩

/-- The `GET /users` handler (lines 213–223):
`SELECT id, full_name, email, created_at FROM users` — no auth check, no
password column. -/
def getUsersHandler (env : Env) (db : DB) : HResult :=
  match env.selectErr with
  | some e =>
      ⟨⟨500, .err "Failed to fetch users"⟩, db,
        [LogEntry.getUsersError e], [StoreOp.selectAllUsers]⟩
  | none =>
      ⟨⟨200, .usersList (db.users.map
          (fun u => ⟨u.id, u.full_name, u.email, u.created_at⟩))⟩,
        db, [], [StoreOp.selectAllUsers]⟩

/-- The `GET /test-db` handler (lines 87–109). -/
def testDbHandler (env : Env) (db : DB) : HResult :=
  match env.selectErr with
  | some e =>
      ⟨⟨500, .err "Database test failed."⟩, db,
        [LogEntry.dbTestError e], [StoreOp.selectOnePlusOne]⟩
  | none =>
      ⟨⟨200, .testDb db.hasUsersTable 2⟩, db, [],
        [StoreOp.selectOnePlusOne, StoreOp.showTables]⟩

/-- The `GET /create-users-table` handler (lines 112–130): issues
`CREATE TABLE IF NOT EXISTS users (...)`. -/
def createUsersTableHandler (env : Env) (db : DB) : HResult :=
  match env.selectErr with
  | some e =>
      ⟨⟨500, .err "Table creation failed"⟩, db,
        [LogEntry.tableCreationError e], [StoreOp.createUsersTable]⟩
  | none =>
      ⟨⟨200, .tableReady⟩, ⟨db.users, db.nextId, true⟩, [],
        [StoreOp.createUsersTable]⟩

/-- An inbound HTTP request. -/
structure Request where
  method : String
  path : String
  body : SignupBody
  authorization : Option String
deriving Repr, DecidableEq

/-- The Express routing table of `server.js` in declaration order:
GET /health, GET /test-db, GET /create-users-table, POST /signup,
GET /users, GET /, and the catch-all
`app.use((req,res) => res.status(404).json({error:"Route not found"}))`
for everything else (lines 240–245).  There is no POST /login, no
POST /signin and no GET /profile route. -/
def handle (env : Env) (db : DB) (req : Request) : HResult :=
  if req.method == "GET" && req.path == "/health" then
    ⟨⟨200, .health⟩, db, [], []⟩
  else if req.method == "GET" && req.path == "/test-db" then
    testDbHandler env db
  else if req.method == "GET" && req.path == "/create-users-table" then
    createUsersTableHandler env db
  else if req.method == "POST" && req.path == "/signup" then
    signup env db req.body
  else if req.method == "GET" && req.path == "/users" then
    getUsersHandler env db
  else if req.method == "GET" && req.path == "/" then
    ⟨⟨200, .rootInfo⟩, db, [], []⟩
  else
    ⟨⟨404, .err "Route not found"⟩, db, [], []⟩

/-- Outcome of the boot sequence. -/
inductive BootOutcome where
  | exited (code : Nat)
  | running
deriving Repr, DecidableEq

/-- Result of booting: outcome, database state, SQL issued. -/
structure BootResult where
  outcome : BootOutcome
  db : DB
  ops : List StoreOp
deriving Repr, DecidableEq

/-- The boot sequence (lines 65–73): `db.connect` — on failure the process
calls `process.exit(1)`; on success it runs the source's initializeDatabase
(lines 46–62), which issues `CREATE TABLE IF NOT EXISTS users (...)` and,
on error, only logs (the process keeps running with the table absent). -/
def bootConnect (connectErr : Option String) (ddlErr : Option JsErr)
    (db : DB) : BootResult :=
  match connectErr with
  | some _ => ⟨.exited 1, db, []⟩
  | none =>
    match ddlErr with
    | some _ => ⟨.running, db, [StoreOp.createUsersTable]⟩
    | none => ⟨.running, ⟨db.users, db.nextId, true⟩, [StoreOp.createUsersTable]⟩

/-- The column list of the `CREATE TABLE IF NOT EXISTS users` statement
(lines 48–56). -/
def usersTableColumns : List (String × String) :=
  [("id", "INT AUTO_INCREMENT PRIMARY KEY"),
   ("full_name", "VARCHAR(255) NOT NULL"),
   ("email", "VARCHAR(255) UNIQUE NOT NULL"),
   ("password", "VARCHAR(255) NOT NULL"),
   ("created_at", "TIMESTAMP DEFAULT CURRENT_TIMESTAMP")]

/-- All strings occurring in a response body (payload of a leak check). -/
def respStrings : RespBody → List String
  | .err m => [m]
  | .signupOk _ fn em => [fn, em]
  | .usersList rows => rows.flatMap (fun r => [r.full_name, r.email])
  | .health => []
  | .testDb _ _ => []
  | .tableReady => []
  | .rootInfo => []

/-- Does the operation trace contain an INSERT? -/
def hasInsert (ops : List StoreOp) : Bool :=
  ops.any (fun op => match op with
    | .insertUser _ _ _ => true
    | _ => false)

/-! ## Concrete fixtures for counterexamples and witnesses -/

/-- The bcrypt hash the model assigns to the scenario password. -/
def anaHash : String := bcryptHash 10 "s0" "secret1"

/-- A database holding the registered user of the spec scenario. -/
def dbAna : DB := ⟨[⟨1, "Ana", "ana@x.com", anaHash, 100⟩], 2, true⟩

/-- An environment with no injected store or bcrypt failures. -/
def envOk : Env := ⟨none, none, none, "s0", 100⟩

/-- A login request with the registered user's correct credentials. -/
def loginReq : Request :=
  ⟨"POST", "/login", ⟨none, some "ana@x.com", some "secret1"⟩, none⟩

/-- A profile request bearing the token string "garbage". -/
def profileReq : Request :=
  ⟨"GET", "/profile", ⟨none, none, none⟩, some "Bearer garbage"⟩

/-! ## Theorems -/

/-- C1 (counterexample): the server has no POST /login route.  Even for a
request carrying the correct email and password of a registered user
(the stored password column is exactly the bcrypt hash of the submitted
password), the response is 404 "Route not found" — not 200, and for wrong
credentials it is likewise never 401. -/
theorem login_always_404_counterexample :
    dbAna.users.any
      (fun u => u.email == "ana@x.com" && u.password == bcryptHash 10 "s0" "secret1") = true
    ∧ (handle envOk dbAna loginReq).resp.status = 404
    ∧ (handle envOk dbAna loginReq).resp.status ≠ 200
    ∧ (handle envOk dbAna
         ⟨"POST", "/login", ⟨none, some "ana@x.com", some "wrong-password"⟩, none⟩).resp.status ≠ 401
    ∧ (handle envOk dbAna loginReq).resp.body = .err "Route not found" := by
  refine ⟨by decide, rfl, by decide, by decide, rfl⟩

/-- C1 (amended): every POST /login request, whatever the credentials and
whatever the database state, falls through to the unhandled-route handler
and receives 404 {success:false, error:"Route not found"}; the store is
untouched. -/
theorem login_route_unhandled (env : Env) (db : DB) (body : SignupBody)
    (auth : Option String) :
    (handle env db ⟨"POST", "/login", body, auth⟩).resp
      = ⟨404, .err "Route not found"⟩
    ∧ (handle env db ⟨"POST", "/login", body, auth⟩).db = db
    ∧ (handle env db ⟨"POST", "/login", body, auth⟩).ops = [] := by
  exact ⟨rfl, rfl, rfl⟩

/-- C2 (counterexample): the server has no GET /profile route.  A request
with Authorization "Bearer garbage" receives 404 "Route not found", not
the 401 the claim states; a well-formed bearer token fares no better
(404, never 200). -/
theorem profile_always_404_counterexample :
    (handle envOk dbAna profileReq).resp.status = 404
    ∧ (handle envOk dbAna profileReq).resp.status ≠ 401
    ∧ (handle envOk dbAna
         ⟨"GET", "/profile", ⟨none, none, none⟩, some "Bearer sometoken"⟩).resp.status ≠ 200
    ∧ (handle envOk dbAna profileReq).resp.body = .err "Route not found" := by
  refine ⟨rfl, by decide, by decide, rfl⟩

/-- C2 (amended): every GET /profile request — missing header, malformed
header, garbage token or any token whatsoever — falls through to the
unhandled-route handler and receives 404 {success:false,
error:"Route not found"}. -/
theorem profile_route_unhandled (env : Env) (db : DB) (body : SignupBody)
    (auth : Option String) :
    (handle env db ⟨"GET", "/profile", body, auth⟩).resp
      = ⟨404, .err "Route not found"⟩
    ∧ (handle env db ⟨"GET", "/profile", body, auth⟩).db = db := by
  exact ⟨rfl, rfl⟩

/-- C10: GET /users is served to any caller — the handler never looks at
the Authorization header — and returns, for every stored user, exactly
the columns id, full_name, email and created_at; the password column is
not part of the projection and the store is unchanged. -/
theorem users_endpoint_unauthenticated (env : Env) (db : DB)
    (body : SignupBody) (auth : Option String)
    (hsel : env.selectErr = none) :
    (handle env db ⟨"GET", "/users", body, auth⟩).resp.status = 200
    ∧ (handle env db ⟨"GET", "/users", body, auth⟩).resp.body
        = .usersList (db.users.map
            (fun u => ⟨u.id, u.full_name, u.email, u.created_at⟩))
    ∧ (handle env db ⟨"GET", "/users", body, auth⟩).db = db
    ∧ handle env db ⟨"GET", "/users", body, auth⟩
        = handle env db ⟨"GET", "/users", ⟨none, none, none⟩, none⟩ := by
  have h1 : handle env db ⟨"GET", "/users", body, auth⟩ = getUsersHandler env db := rfl
  have h2 : handle env db ⟨"GET", "/users", ⟨none, none, none⟩, none⟩
      = getUsersHandler env db := rfl
  rw [h1, h2]
  simp [getUsersHandler, hsel]

/-- C10 (witness). -/
theorem users_endpoint_unauthenticated_witness :
    envOk.selectErr = none
    ∧ (handle envOk dbAna ⟨"GET", "/users", ⟨none, none, none⟩, some "Bearer whatever"⟩).resp.status = 200 :=
  ⟨rfl, (users_endpoint_unauthenticated envOk dbAna ⟨none, none, none⟩
      (some "Bearer whatever") rfl).1⟩

/-- Helper: the signup handler either answers 201 or leaves the database
untouched (every error path returns before or instead of the insert, and
a failed insert does not change the store). -/
theorem signup_status_or_db (env : Env) (db : DB) (body : SignupBody) :
    (signup env db body).resp.status = 201 ∨ (signup env db body).db = db := by
  simp only [signup, signupCatch]
  repeat' first
  | exact Or.inl rfl
  | exact Or.inr rfl
  | split

/-- Helper: a signup that did not answer 201 leaves the database as it was. -/
theorem signup_db_of_not_created (env : Env) (db : DB) (body : SignupBody)
    (h : (signup env db body).resp.status ≠ 201) :
    (signup env db body).db = db := by
  rcases signup_status_or_db env db body with h2 | h2
  · exact absurd h2 h
  · exact h2

/-- C5: a signup whose name, email or password is missing/empty, or whose
password is shorter than 6 characters, is answered 400 before any SQL
statement is issued: the store is unchanged and the operation trace is
empty. -/
theorem invalid_signup_rejected_before_store (env : Env) (db : DB)
    (body : SignupBody)
    (h : truthy body.full_name = false ∨ truthy body.email = false
         ∨ truthy body.password = false
         ∨ (body.password.getD "").length < 6) :
    (signup env db body).resp.status = 400
    ∧ (signup env db body).db = db
    ∧ (signup env db body).ops = [] := by
  simp only [signup]
  split
  · exact ⟨rfl, rfl, rfl⟩
  · rename_i hv
    split
    · exact ⟨rfl, rfl, rfl⟩
    · rename_i hlen
      exfalso
      simp only [Bool.or_eq_true, Bool.not_eq_true'] at hv
      push_neg at hv
      obtain ⟨⟨h1, h2⟩, h3⟩ := hv
      rcases h with h | h | h | h
      · exact h1 h
      · exact h2 h
      · exact h3 h
      · exact hlen h

/-- C5 (witness). -/
theorem invalid_signup_rejected_before_store_witness :
    (truthy (some "123" : Option String) = false
      ∨ truthy (some "ana2@x.com" : Option String) = false
      ∨ truthy (some "123" : Option String) = false
      ∨ ((some "123" : Option String).getD "").length < 6)
    ∧ (signup envOk dbAna ⟨some "Bob", some "ana2@x.com", some "123"⟩).resp.status = 400 :=
  ⟨Or.inr (Or.inr (Or.inr (by decide))),
   (invalid_signup_rejected_before_store envOk dbAna
      ⟨some "Bob", some "ana2@x.com", some "123"⟩
      (Or.inr (Or.inr (Or.inr (by decide))))).1⟩

/-- C8: repeating a failed signup with the identical input, against the
store state the failed attempt left behind and the same store behaviour,
returns the very same result — status, error body, log and operation
trace — so the error classification of a failed signup is idempotent. -/
theorem failed_signup_idempotent_error (env : Env) (db : DB)
    (body : SignupBody)
    (h : (signup env db body).resp.status ≠ 201) :
    signup env (signup env db body).db body = signup env db body := by
  rw [signup_db_of_not_created env db body h]

/-- C8 (witness): a short-password signup fails with 400 and repeating it
gives the identical outcome. -/
theorem failed_signup_idempotent_error_witness :
    (signup envOk dbAna ⟨some "Bob", some "b@x.com", some "123"⟩).resp.status ≠ 201
    ∧ signup envOk (signup envOk dbAna ⟨some "Bob", some "b@x.com", some "123"⟩).db
        ⟨some "Bob", some "b@x.com", some "123"⟩
      = signup envOk dbAna ⟨some "Bob", some "b@x.com", some "123"⟩ :=
  ⟨by decide,
   failed_signup_idempotent_error envOk dbAna
     ⟨some "Bob", some "b@x.com", some "123"⟩ (by decide)⟩

/-- C9: a 400 validation answer is produced before any SQL statement, and
when the pre-existence check finds the email (store select succeeding),
no INSERT is ever issued and the store is unchanged. -/
theorem early_errors_leave_store_unchanged (env : Env) (db : DB)
    (body : SignupBody) :
    ((signup env db body).resp.status = 400 →
       (signup env db body).db = db ∧ (signup env db body).ops = [])
    ∧ (env.selectErr = none →
       0 < (findByEmail db (body.email.getD "")).length →
       (signup env db body).resp.status ≠ 201
       ∧ (signup env db body).db = db
       ∧ hasInsert (signup env db body).ops = false) := by
  constructor
  · have key : (signup env db body).resp.status ≠ 400
        ∨ ((signup env db body).db = db ∧ (signup env db body).ops = []) := by
      simp only [signup, signupCatch]
      repeat' first
      | (left; simp; done)
      | (right; exact ⟨rfl, rfl⟩)
      | split
    intro h
    rcases key with k | k
    · exact absurd h k
    · exact k
  · intro hsel htaken
    by_cases hval : (!truthy body.full_name || !truthy body.email
        || !truthy body.password) = true
    · simp only [signup, if_pos hval]
      simp [hasInsert]
    · by_cases hl : (body.password.getD "").length < 6
      · simp only [signup, if_neg hval, if_pos hl]
        simp [hasInsert]
      · simp only [signup, if_neg hval, if_neg hl, hsel, if_pos htaken]
        simp [hasInsert]

/-- C9 (witness): the duplicate-email pre-check answers without touching
the store. -/
theorem early_errors_leave_store_unchanged_witness :
    envOk.selectErr = none
    ∧ 0 < (findByEmail dbAna "ana@x.com").length
    ∧ (signup envOk dbAna ⟨some "Ana", some "ana@x.com", some "secret1"⟩).db = dbAna
    ∧ hasInsert (signup envOk dbAna ⟨some "Ana", some "ana@x.com", some "secret1"⟩).ops = false :=
  ⟨rfl, by decide,
   ((early_errors_leave_store_unchanged envOk dbAna
       ⟨some "Ana", some "ana@x.com", some "secret1"⟩).2 rfl (by decide)).2.1,
   ((early_errors_leave_store_unchanged envOk dbAna
       ⟨some "Ana", some "ana@x.com", some "secret1"⟩).2 rfl (by decide)).2.2⟩

/-- C4: with a syntactically valid body, signup against a store that
already holds the email answers 409 Conflict whatever the submitted
password is; when the pre-check passes, a duplicate-key error thrown by
the INSERT is mapped to 409, while a bcrypt failure or any other store
error is mapped to 500. -/
theorem duplicate_email_conflict_taxonomy (env : Env) (db : DB)
    (fn em pw : String)
    (hfn : fn ≠ "") (hem : em ≠ "") (hpw : 6 ≤ pw.length) :
    (env.selectErr = none → 0 < (findByEmail db em).length →
       (signup env db ⟨some fn, some em, some pw⟩).resp
         = ⟨409, .err "User already exists with this email"⟩
       ∧ (signup env db ⟨some fn, some em, some pw⟩).db = db)
    ∧ (env.selectErr = none → (findByEmail db em).length = 0 →
       (∀ m, env.hashErr = some m →
          (signup env db ⟨some fn, some em, some pw⟩).resp
            = ⟨500, .err ("Registration failed: " ++ m)⟩)
       ∧ (env.hashErr = none →
          (env.insertErr = some JsErr.dupEntry →
             (signup env db ⟨some fn, some em, some pw⟩).resp
               = ⟨409, .err "Email already exists"⟩
             ∧ (signup env db ⟨some fn, some em, some pw⟩).db = db)
          ∧ (∀ e, env.insertErr = some e → e ≠ JsErr.dupEntry →
             (signup env db ⟨some fn, some em, some pw⟩).resp.status = 500)))
    ∧ (∀ e, env.selectErr = some e →
       (signup env db ⟨some fn, some em, some pw⟩).resp.status
         = (if e = JsErr.dupEntry then 409 else 500)) := by
  have hpw0 : pw ≠ "" := fun h => absurd (h ▸ hpw) (by decide)
  have e1 : (fn == "") = false := by simp [hfn]
  have e2 : (em == "") = false := by simp [hem]
  have e3 : (pw == "") = false := by simp [hpw0]
  have hvc : ¬((!(truthy (some fn)) || !(truthy (some em))
      || !(truthy (some pw))) = true) := by
    simp [truthy, e1, e2, e3]
  have hl6 : ¬(pw.length < 6) := by omega
  refine ⟨?_, ?_, ?_⟩
  · intro hsel htaken
    simp only [signup, Option.getD_some, if_neg hvc, if_neg hl6, hsel,
      if_pos htaken]
    exact ⟨trivial, trivial⟩
  · intro hsel hfree
    have hnotlt : ¬(0 < (findByEmail db em).length) := by omega
    constructor
    · intro m hm
      simp only [signup, Option.getD_some, if_neg hvc, if_neg hl6, hsel,
        if_neg hnotlt, hm, signupCatch]
    · intro hhn
      constructor
      · intro hid
        simp only [signup, Option.getD_some, if_neg hvc, if_neg hl6, hsel,
          if_neg hnotlt, hhn, hid, signupCatch]
        exact ⟨trivial, trivial⟩
      · intro e he hne
        simp only [signup, Option.getD_some, if_neg hvc, if_neg hl6, hsel,
          if_neg hnotlt, hhn, he, signupCatch]
        cases e with
        | dupEntry => exact absurd rfl hne
        | noSuchTable => rfl
        | other m => rfl
  · intro e he
    simp only [signup, Option.getD_some, if_neg hvc, if_neg hl6, he,
      signupCatch]
    cases e with
    | dupEntry => rfl
    | noSuchTable => rfl
    | other m => rfl

/-- C4 (witness): re-signing up the registered email with a different
password still yields 409 Conflict. -/
theorem duplicate_email_conflict_taxonomy_witness :
    ("Ana" : String) ≠ "" ∧ ("ana@x.com" : String) ≠ ""
    ∧ 6 ≤ ("other-password" : String).length
    ∧ envOk.selectErr = none
    ∧ 0 < (findByEmail dbAna "ana@x.com").length
    ∧ (signup envOk dbAna ⟨some "Ana", some "ana@x.com", some "other-password"⟩).resp
        = ⟨409, .err "User already exists with this email"⟩ :=
  ⟨by decide, by decide, by decide, rfl, by decide,
   ((duplicate_email_conflict_taxonomy envOk dbAna "Ana" "ana@x.com"
       "other-password" (by decide) (by decide) (by decide)).1
     rfl (by decide)).1⟩

/-- C6: a valid signup (non-empty fields, password of at least 6
characters, email not yet stored, no store failure) hashes the password
with bcrypt at cost factor 10 and the environment's salt, issues exactly
the existence-check SELECT followed by one INSERT of
{full_name, email, password_hash}, appends the new row, and answers 201
carrying the generated id. -/
theorem valid_signup_hashes_inserts_201 (env : Env) (db : DB)
    (fn em pw : String)
    (hfn : fn ≠ "") (hem : em ≠ "") (hpw : 6 ≤ pw.length)
    (hfresh : findByEmail db em = [])
    (hsel : env.selectErr = none) (hh : env.hashErr = none)
    (hins : env.insertErr = none) :
    signup env db ⟨some fn, some em, some pw⟩
      = ⟨⟨201, .signupOk db.nextId fn em⟩,
         ⟨db.users ++ [⟨db.nextId, fn, em, bcryptHash 10 env.salt pw, env.now⟩],
           db.nextId + 1, db.hasUsersTable⟩,
         [.signupRequest ⟨some fn, some em, some pw⟩, .userCreated db.nextId],
         [.selectByEmail em, .insertUser fn em (bcryptHash 10 env.salt pw)]⟩ := by
  have hpw0 : pw ≠ "" := fun h => absurd (h ▸ hpw) (by decide)
  have e1 : (fn == "") = false := by simp [hfn]
  have e2 : (em == "") = false := by simp [hem]
  have e3 : (pw == "") = false := by simp [hpw0]
  have hvc : ¬((!(truthy (some fn)) || !(truthy (some em))
      || !(truthy (some pw))) = true) := by
    simp [truthy, e1, e2, e3]
  have hl6 : ¬(pw.length < 6) := by omega
  have hnotlt : ¬(0 < (findByEmail db em).length) := by
    rw [hfresh]; simp
  simp only [signup, Option.getD_some, if_neg hvc, if_neg hl6, hsel,
    if_neg hnotlt, hh, hins]
  rfl

/-- C6 (witness): the spec scenario signup("Ana","ana@x.com","secret1")
against an empty store creates row id 1 with the bcrypt hash stored. -/
theorem valid_signup_hashes_inserts_201_witness :
    ("Ana" : String) ≠ "" ∧ ("ana@x.com" : String) ≠ ""
    ∧ 6 ≤ ("secret1" : String).length
    ∧ findByEmail ⟨[], 1, true⟩ "ana@x.com" = []
    ∧ signup envOk ⟨[], 1, true⟩ ⟨some "Ana", some "ana@x.com", some "secret1"⟩
      = ⟨⟨201, .signupOk 1 "Ana" "ana@x.com"⟩,
         ⟨[⟨1, "Ana", "ana@x.com", bcryptHash 10 "s0" "secret1", 100⟩], 2, true⟩,
         [.signupRequest ⟨some "Ana", some "ana@x.com", some "secret1"⟩,
          .userCreated 1],
         [.selectByEmail "ana@x.com",
          .insertUser "Ana" "ana@x.com" (bcryptHash 10 "s0" "secret1")]⟩ :=
  ⟨by decide, by decide, by decide, by decide,
   valid_signup_hashes_inserts_201 envOk ⟨[], 1, true⟩ "Ana" "ana@x.com"
     "secret1" (by decide) (by decide) (by decide) (by decide) rfl rfl rfl⟩

/-- C7: when `db.connect` reports an error the process exits with code 1
(non-zero); when the connection succeeds, boot issues
`CREATE TABLE IF NOT EXISTS users` (whose column list is exactly
id, full_name, email, password, created_at), which makes the table exist,
keeps all existing rows, and is a no-op on a database whose table already
exists. -/
theorem startup_creates_table_or_exits (cErr : Option String)
    (ddlErr : Option JsErr) (db : DB) :
    (∀ m, cErr = some m →
       (bootConnect cErr ddlErr db).outcome = BootOutcome.exited 1
       ∧ (1 : Nat) ≠ 0)
    ∧ (cErr = none →
       StoreOp.createUsersTable ∈ (bootConnect cErr ddlErr db).ops
       ∧ (ddlErr = none →
          (bootConnect cErr ddlErr db).outcome = BootOutcome.running
          ∧ (bootConnect cErr ddlErr db).db.hasUsersTable = true
          ∧ (bootConnect cErr ddlErr db).db.users = db.users
          ∧ (bootConnect cErr ddlErr db).db.nextId = db.nextId
          ∧ (db.hasUsersTable = true → (bootConnect cErr ddlErr db).db = db)))
    ∧ usersTableColumns.map Prod.fst
        = ["id", "full_name", "email", "password", "created_at"] := by
  obtain ⟨u, n, htab⟩ := db
  refine ⟨?_, ?_, rfl⟩
  · intro m hm
    subst hm
    exact ⟨rfl, by decide⟩
  · intro hce
    subst hce
    cases ddlErr with
    | some e => exact ⟨by simp [bootConnect], fun h => nomatch h⟩
    | none =>
      refine ⟨by simp [bootConnect], fun _ => ⟨rfl, rfl, rfl, rfl, fun ht => ?_⟩⟩
      have ht2 : htab = true := ht
      subst ht2
      rfl

/-- C7 (witness). -/
theorem startup_creates_table_or_exits_witness :
    (bootConnect (some "ECONNREFUSED") none ⟨[], 1, false⟩).outcome
      = BootOutcome.exited 1
    ∧ StoreOp.createUsersTable ∈ (bootConnect none none ⟨[], 1, false⟩).ops
    ∧ (bootConnect none none ⟨[], 1, false⟩).db.hasUsersTable = true :=
  ⟨((startup_creates_table_or_exits (some "ECONNREFUSED") none
      ⟨[], 1, false⟩).1 "ECONNREFUSED" rfl).1,
   ((startup_creates_table_or_exits none none ⟨[], 1, false⟩).2.1 rfl).1,
   (((startup_creates_table_or_exits none none ⟨[], 1, false⟩).2.1 rfl).2
      rfl).2.1⟩

/-- Helper: a string strictly shorter than another differs from it. -/
theorem ne_of_short {a b : String} (h : a.length < b.length) : a ≠ b :=
  fun he => absurd (he ▸ h) (lt_irrefl _)

/-- Helper: a truthy optional field is `some` of its default read. -/
theorem truthy_some_getD {o : Option String} (h : truthy o = true) :
    o = some (o.getD "") := by
  cases o with
  | none => simp [truthy] at h
  | some s => rfl

/-- Helper: every line the signup handler might put in the response bodies
it sends is either an echo of the submitted full_name/email (201 case) or
an error message of at least 20 characters, so a password shorter than 20
characters that differs from the submitted full_name and email never
appears in the response. -/
theorem signup_resp_no_plaintext (env : Env) (db : DB) (body : SignupBody)
    (pw : String)
    (hfn : body.full_name ≠ some pw) (hem : body.email ≠ some pw)
    (hlen : pw.length < 20) :
    pw ∉ respStrings (signup env db body).resp.body := by
  have hfix : ∀ s : String, 20 ≤ s.length → pw ≠ s := by
    intro s hs he
    rw [he] at hlen
    omega
  have hra : ∀ m : String, pw ≠ "Registration failed: " ++ m := by
    intro m he
    have h1 : pw.length = ("Registration failed: " ++ m).length := by rw [he]
    rw [String.length_append] at h1
    have h2 : ("Registration failed: " : String).length = 21 := by decide
    omega
  by_cases hval : (!(truthy body.full_name) || !(truthy body.email)
      || !(truthy body.password)) = true
  · simp only [signup, if_pos hval, respStrings, List.mem_singleton]
    exact hfix _ (by decide)
  · have hft : truthy body.full_name = true := by
      cases hb : truthy body.full_name
      · exact absurd (by simp [hb]) hval
      · rfl
    have het : truthy body.email = true := by
      cases hb : truthy body.email
      · exact absurd (by simp [hb]) hval
      · rfl
    by_cases hl : ((body.password.getD "").length < 6)
    · simp only [signup, if_neg hval, if_pos hl, respStrings,
        List.mem_singleton]
      exact hfix _ (by decide)
    · cases hsel : env.selectErr with
      | some e =>
        cases e with
        | dupEntry =>
          simp only [signup, if_neg hval, if_neg hl, hsel, signupCatch,
            respStrings, List.mem_singleton]
          exact hfix _ (by decide)
        | noSuchTable =>
          simp only [signup, if_neg hval, if_neg hl, hsel, signupCatch,
            respStrings, List.mem_singleton]
          exact hfix _ (by decide)
        | other m =>
          simp only [signup, if_neg hval, if_neg hl, hsel, signupCatch,
            respStrings, List.mem_singleton]
          exact hra m
      | none =>
        by_cases hex : 0 < (findByEmail db (body.email.getD "")).length
        · simp only [signup, if_neg hval, if_neg hl, hsel, if_pos hex,
            respStrings, List.mem_singleton]
          exact hfix _ (by decide)
        · cases hh : env.hashErr with
          | some m =>
            simp only [signup, if_neg hval, if_neg hl, hsel, if_neg hex, hh,
              signupCatch, respStrings, List.mem_singleton]
            exact hra m
          | none =>
            cases hins : env.insertErr with
            | some e =>
              cases e with
              | dupEntry =>
                simp only [signup, if_neg hval, if_neg hl, hsel, if_neg hex,
                  hh, hins, signupCatch, respStrings, List.mem_singleton]
                exact hfix _ (by decide)
              | noSuchTable =>
                simp only [signup, if_neg hval, if_neg hl, hsel, if_neg hex,
                  hh, hins, signupCatch, respStrings, List.mem_singleton]
                exact hfix _ (by decide)
              | other m =>
                simp only [signup, if_neg hval, if_neg hl, hsel, if_neg hex,
                  hh, hins, signupCatch, respStrings, List.mem_singleton]
                exact hra m
            | none =>
              simp only [signup, if_neg hval, if_neg hl, hsel, if_neg hex,
                hh, hins, respStrings]
              intro hmem
              simp only [List.mem_cons, List.not_mem_nil, or_false] at hmem
              rcases hmem with h | h
              · exact hfn ((truthy_some_getD hft).trans (by rw [h]))
              · exact hem ((truthy_some_getD het).trans (by rw [h]))

/-- Helper: `console.log("Received signup request:", req.body)` runs first
in the handler, so the whole request body — plaintext password included —
is in the log of every signup, whatever the outcome. -/
theorem signup_logs_request (env : Env) (db : DB) (body : SignupBody) :
    LogEntry.signupRequest body ∈ (signup env db body).log := by
  simp only [signup, signupCatch]
  repeat' first
  | (simp; done)
  | split

/-- Helper: every row the signup handler adds to the store carries the
bcrypt digest of the submitted password in the password column, never the
submitted password itself. -/
theorem signup_stores_only_hash (env : Env) (db : DB) (body : SignupBody) :
    ∀ u ∈ (signup env db body).db.users,
      u ∈ db.users ∨ u.password = bcryptHash 10 env.salt (body.password.getD "") := by
  simp only [signup, signupCatch]
  repeat' first
  | (intro u hu; exact Or.inl hu)
  | (intro u hu
     rcases List.mem_append.mp hu with h | h
     exacts [Or.inl h,
       Or.inr (by simp only [List.mem_singleton] at h; subst h; rfl)])
  | split

/-- C3 (counterexample to the claim as stated): the very first statement
of the signup handler logs the request body, so the plaintext password
"secret1" is written to the log. -/
theorem signup_logs_plaintext_counterexample :
    LogEntry.signupRequest ⟨some "Ana", some "ana@x.com", some "secret1"⟩
      ∈ (signup envOk ⟨[], 1, true⟩
           ⟨some "Ana", some "ana@x.com", some "secret1"⟩).log
    ∧ SignupBody.password ⟨some "Ana", some "ana@x.com", some "secret1"⟩
        = some "secret1"
    ∧ (signup envOk ⟨[], 1, true⟩
         ⟨some "Ana", some "ana@x.com", some "secret1"⟩).db.users
        = [⟨1, "Ana", "ana@x.com", bcryptHash 10 "s0" "secret1", 100⟩] := by
  refine ⟨by decide, rfl, by decide⟩

/-- C3 (amended): the plaintext password is never stored (the inserted
row's password column is the bcrypt digest) and never occurs in the
response body (which echoes only full_name/email and fixed error
messages), but it IS logged: the handler logs the entire request body
before doing anything else. -/
theorem plaintext_never_stored_or_returned_but_logged (env : Env) (db : DB)
    (body : SignupBody) (pw : String)
    (hpw : body.password = some pw)
    (hfn : body.full_name ≠ some pw) (hem : body.email ≠ some pw)
    (hlen : pw.length < 20) :
    LogEntry.signupRequest body ∈ (signup env db body).log
    ∧ (∀ u ∈ (signup env db body).db.users,
        u ∈ db.users ∨ u.password = bcryptHash 10 env.salt pw)
    ∧ pw ∉ respStrings (signup env db body).resp.body := by
  refine ⟨signup_logs_request env db body, ?_, 
    signup_resp_no_plaintext env db body pw hfn hem hlen⟩
  have h := signup_stores_only_hash env db body
  rw [hpw] at h
  exact h

/-- C3 (witness). -/
theorem plaintext_never_stored_or_returned_but_logged_witness :
    (SignupBody.password ⟨some "Bob", some "b@x.com", some "hunter2"⟩
       = some "hunter2")
    ∧ SignupBody.full_name ⟨some "Bob", some "b@x.com", some "hunter2"⟩
        ≠ some "hunter2"
    ∧ SignupBody.email ⟨some "Bob", some "b@x.com", some "hunter2"⟩
        ≠ some "hunter2"
    ∧ ("hunter2" : String).length < 20
    ∧ "hunter2" ∉ respStrings
        (signup envOk ⟨[], 1, true⟩
          ⟨some "Bob", some "b@x.com", some "hunter2"⟩).resp.body :=
  ⟨rfl, by decide, by decide, by decide,
   (plaintext_never_stored_or_returned_but_logged envOk ⟨[], 1, true⟩
      ⟨some "Bob", some "b@x.com", some "hunter2"⟩ "hunter2"
      rfl (by decide) (by decide) (by decide)).2.2⟩
